import Mathlib

/-!
# Shallow embedding of the `shared_memory` crate (unix backend)

This file embeds the segment-lifecycle core of the crate:
`src/lib.rs` (configuration / orchestrator: `ShmemConf::create`,
`ShmemConf::open`, `Drop for ShmemConf`, the `Shmem` handle) and
`src/unix.rs` (driver: `create_mapping`, `open_mapping`,
`create_mapping_tmpfs`, `open_mapping_tmpfs`, `Drop for MapData`).

Modelling conventions:
* All syscall and filesystem outcomes are supplied by explicit oracle
  values (`AttemptSys`, `OpenSys`, `CreateEnv`, `OpenEnv`), one entry per
  attempt, so the embedded functions are pure and executable.
* The random `u64` draws of `rand::random::<u64>()` are an explicit
  stream `Nat → Nat`.
* OS-visible side effects are reproduced as an event trace
  (`List Event`), including the events produced by the implicit Rust
  `Drop` of the freshly built `MapData` / `ShmemConf` on early-return
  error paths.
* `io::Error` payloads are carried as their raw OS error codes (`Nat`);
  paths are `String`s (`PathBuf::join` becomes string concatenation with
  a separator); file descriptors are `Int` as Rust's `RawFd` is `c_int`.
* The build is the unix one: `cfg!(not(target_os = "windows"))` is the
  constant `true` (`cfgNotWindows` below).

The `error` module of the crate is not under `src/`, but every variant
used by `lib.rs`/`unix.rs` is visible at its use sites; `ShmemError`
below lists exactly those variants.
-/

/-- The crate's error enum, as used by `src/lib.rs` and `src/unix.rs`.
`io::Error` / errno payloads are modelled by their raw OS codes. -/
inductive ShmemError where
  | MapSizeZero
  | LinkExists
  | LinkCreateFailed (code : Nat)
  | LinkWriteFailed (code : Nat)
  | LinkOpenFailed (code : Nat)
  | LinkReadFailed (code : Nat)
  | MappingIdExists
  | MapCreateFailed (code : Nat)
  | MapOpenFailed (code : Nat)
  | UnknownOsError (code : Nat)
  | NoLinkOrOsId
  | NotInTmpfsMode
  | NoTmpfsBaseDir
  deriving DecidableEq, Repr

/-- `unix.rs`: `MapData` — the live OS resource held by a handle.
`map_ptr` is the mapped base address (`0` models the null pointer). -/
structure MapData where
  owner : Bool
  map_fd : Int
  unique_id : String
  map_size : Nat
  map_ptr : Nat
  is_tmpfs : Bool
  deriving DecidableEq, Repr

/-- `lib.rs`: `ShmemConf` — the builder-style configuration.
`mode` models the optional `nix::sys::stat::Mode` bits. -/
structure ShmemConf where
  owner : Bool
  os_id : Option String
  overwrite_flink : Bool
  flink_path : Option String
  size : Nat
  mode : Option Nat
  use_tmpfs : Bool
  tmpfs_base_dir : Option String
  deriving DecidableEq, Repr

/-- `ShmemConf::default()` / `ShmemConf::new()`. -/
def ShmemConf.new : ShmemConf :=
  { owner := false, os_id := none, overwrite_flink := false, flink_path := none,
    size := 0, mode := none, use_tmpfs := false, tmpfs_base_dir := none }

/-- Builder `ShmemConf::os_id`. -/
def ShmemConf.set_os_id (c : ShmemConf) (i : String) : ShmemConf :=
  { c with os_id := some i }

/-- Builder `ShmemConf::force_create_flink`. -/
def ShmemConf.force_create_flink (c : ShmemConf) : ShmemConf :=
  { c with overwrite_flink := true }

/-- Builder `ShmemConf::flink`. -/
def ShmemConf.flink (c : ShmemConf) (p : String) : ShmemConf :=
  { c with flink_path := some p }

/-- Builder `ShmemConf::size`. -/
def ShmemConf.set_size (c : ShmemConf) (n : Nat) : ShmemConf :=
  { c with size := n }

/-- Builder `ShmemConf::mode`. -/
def ShmemConf.set_mode (c : ShmemConf) (m : Nat) : ShmemConf :=
  { c with mode := some m }

/-- Builder `ShmemConf::use_tmpfs_with_dir`. -/
def ShmemConf.use_tmpfs_with_dir (c : ShmemConf) (d : String) : ShmemConf :=
  { c with use_tmpfs := true, tmpfs_base_dir := some d }

/-- The unix build: `cfg!(not(target_os = "windows"))`. -/
def cfgNotWindows : Bool := true

/-- Rust's `format!("{:X}", n)`: uppercase hexadecimal rendering of a
random draw. -/
def hexUpper (n : Nat) : String :=
  String.mk ((Nat.toDigits 16 n).map Char.toUpper)

/-- `PathBuf::join` on our string-modelled paths. -/
def pathJoin (base name : String) : String := base ++ "/" ++ name

/-- `ShmemConf::get_tmpfs_file_path`. The single `rand::random::<u64>()`
call that the `None` branch performs is made explicit as the `rand`
argument; the `Some` branch never consumes it, exactly as in the source. -/
def ShmemConf.get_tmpfs_file_path (c : ShmemConf) (rand : Nat) :
    Except ShmemError String :=
  if ¬c.use_tmpfs then .error .NotInTmpfsMode
  else
    match c.tmpfs_base_dir with
    | none => .error .NoTmpfsBaseDir
    | some base_dir =>
      match c.os_id with
      | some os_id => .ok (pathJoin base_dir ("shmem_" ++ os_id))
      | none => .ok (pathJoin base_dir ("shmem_" ++ hexUpper rand))

/-- Outcome of an exclusive-create call (`shm_open` with
`O_CREAT|O_EXCL`, or `OpenOptions::create_new`): either a file
descriptor, or the already-exists condition (`EEXIST` /
`ErrorKind::AlreadyExists`), or another raw OS error code. -/
inductive CreErr where
  | eexist
  | other (code : Nat)
  deriving DecidableEq, Repr

/-- Oracle for one driver *create* attempt: results of its exclusive
open, `ftruncate`, and `mmap` syscalls.  `mmapRes` carries the mapped
address on success. -/
structure AttemptSys where
  openRes : Except CreErr Int
  truncRes : Except Nat Unit
  mmapRes : Except Nat Nat
  deriving Repr

/-- `unix.rs`: `create_mapping(unique_id, map_size, mode)`. -/
def create_mapping (unique_id : String) (map_size : Nat) (_mode : Option Nat)
    (sys : AttemptSys) : Except ShmemError MapData :=
  if map_size = 0 then .error .MapSizeZero
  else
    match sys.openRes with
    | .error .eexist => .error .MappingIdExists
    | .error (.other e) => .error (.MapCreateFailed e)
    | .ok shmem_fd =>
      match sys.truncRes with
      | .error e => .error (.UnknownOsError e)
      | .ok _ =>
        match sys.mmapRes with
        | .error e => .error (.MapCreateFailed e)
        | .ok addr =>
          .ok { owner := true, map_fd := shmem_fd, unique_id := unique_id,
                map_size := map_size, map_ptr := addr, is_tmpfs := false }

/-- `unix.rs`: `create_mapping_tmpfs(file_path, map_size, mode)`. -/
def create_mapping_tmpfs (file_path : String) (map_size : Nat)
    (_mode : Option Nat) (sys : AttemptSys) : Except ShmemError MapData :=
  if map_size = 0 then .error .MapSizeZero
  else
    match sys.openRes with
    | .error .eexist => .error .MappingIdExists
    | .error (.other e) => .error (.MapCreateFailed e)
    | .ok fd =>
      match sys.truncRes with
      | .error e => .error (.UnknownOsError e)
      | .ok _ =>
        match sys.mmapRes with
        | .error e => .error (.MapCreateFailed e)
        | .ok addr =>
          .ok { owner := true, map_fd := fd, unique_id := file_path,
                map_size := map_size, map_ptr := addr, is_tmpfs := true }

/-- Oracle for one driver *open* attempt: results of `shm_open` (or the
plain file open), `fstat` (carrying `st_size`), and `mmap`. -/
structure OpenSys where
  openRes : Except Nat Int
  fstatRes : Except Nat Nat
  mmapRes : Except Nat Nat
  deriving Repr

/-- `unix.rs`: `open_mapping(unique_id, _map_size, _ext)` — note the size
hint parameter is dead in the source and here. -/
def open_mapping (unique_id : String) (_map_size : Nat) (sys : OpenSys) :
    Except ShmemError MapData :=
  match sys.openRes with
  | .error e => .error (.MapOpenFailed e)
  | .ok shmem_fd =>
    match sys.fstatRes with
    | .error e => .error (.MapOpenFailed e)
    | .ok st_size =>
      if st_size = 0 then .error .MapSizeZero
      else
        match sys.mmapRes with
        | .error e => .error (.MapOpenFailed e)
        | .ok addr =>
          .ok { owner := false, map_fd := shmem_fd, unique_id := unique_id,
                map_size := st_size, map_ptr := addr, is_tmpfs := false }

/-- `unix.rs`: `open_mapping_tmpfs(file_path, _expected_size)` — the
expected-size hint is dead in the source and here. -/
def open_mapping_tmpfs (file_path : String) (_expected_size : Nat)
    (sys : OpenSys) : Except ShmemError MapData :=
  match sys.openRes with
  | .error e => .error (.MapOpenFailed e)
  | .ok fd =>
    match sys.fstatRes with
    | .error e => .error (.MapOpenFailed e)
    | .ok st_size =>
      if st_size = 0 then .error .MapSizeZero
      else
        match sys.mmapRes with
        | .error e => .error (.MapOpenFailed e)
        | .ok addr =>
          .ok { owner := false, map_fd := fd, unique_id := file_path,
                map_size := st_size, map_ptr := addr, is_tmpfs := true }

/-- `unix.rs`: `MapData::set_owner`. -/
def MapData.set_owner (m : MapData) (is_owner : Bool) : Bool × MapData :=
  (m.owner, { m with owner := is_owner })

/-- OS-visible side effects, as an abstract trace.  `driverCreate` /
`driverOpen` mark one driver attempt (the exclusive-create or open call
of `unix.rs`); the remaining constructors are the teardown and
reference-file effects. -/
inductive Event where
  | driverCreate (id : String)
  | driverOpen (id : String)
  | munmapEv (ptr size : Nat)
  | shmUnlink (id : String)
  | removeFile (path : String)
  | closeFd (fd : Int)
  | flinkCreate (path : String)
  | flinkWrite (path id : String)
  | sleepMs (ms : Nat)
  deriving DecidableEq, Repr

/-- `unix.rs`: `impl Drop for MapData`, run against a failure oracle
`fail` deciding which underlying calls fail.  Each emitted event is
paired with that call's failure flag; as in the source, a failure is
only logged (`debug!`) and never alters the control flow, so the
sequence of attempted steps cannot depend on `fail`. -/
def MapData.dropRun (m : MapData) (fail : Event → Bool) :
    List (Event × Bool) :=
  (if m.map_ptr ≠ 0 then
    [(Event.munmapEv m.map_ptr m.map_size,
      fail (Event.munmapEv m.map_ptr m.map_size))]
   else []) ++
  (if m.map_fd ≠ 0 then
    (if m.owner then
      (if m.is_tmpfs then
        [(Event.removeFile m.unique_id, fail (Event.removeFile m.unique_id))]
       else
        [(Event.shmUnlink m.unique_id, fail (Event.shmUnlink m.unique_id))])
     else []) ++
    [(Event.closeFd m.map_fd, fail (Event.closeFd m.map_fd))]
   else [])

/-- The steps `Drop for MapData` performs (failure-free run). -/
def MapData.dropEvents (m : MapData) : List Event :=
  (m.dropRun (fun _ => false)).map Prod.fst

/-- `lib.rs`: `impl Drop for ShmemConf` — delete the flink iff this
config is marked owner; a deletion failure is ignored (`let _ = ...`). -/
def ShmemConf.dropRun (c : ShmemConf) (fail : Event → Bool) :
    List (Event × Bool) :=
  if c.owner then
    match c.flink_path with
    | some p => [(Event.removeFile p, fail (Event.removeFile p))]
    | none => []
  else []

/-- The steps `Drop for ShmemConf` performs (failure-free run). -/
def ShmemConf.dropEvents (c : ShmemConf) : List Event :=
  (c.dropRun (fun _ => false)).map Prod.fst

/-- `lib.rs`: the public `Shmem` handle. -/
structure Shmem where
  config : ShmemConf
  mapping : MapData
  deriving Repr

/-- Dropping a `Shmem` drops its fields in declaration order:
the config (flink cleanup), then the mapping (unmap/release). -/
def Shmem.dropRun (s : Shmem) (fail : Event → Bool) : List (Event × Bool) :=
  s.config.dropRun fail ++ s.mapping.dropRun fail

/-- The steps dropping a `Shmem` performs (failure-free run). -/
def Shmem.dropEvents (s : Shmem) : List Event :=
  (s.dropRun (fun _ => false)).map Prod.fst

/-- `Shmem::is_owner`. -/
def Shmem.is_owner (s : Shmem) : Bool := s.config.owner

/-- `Shmem::set_owner`: forwards to `MapData::set_owner` (its returned
previous value is discarded), then flips the config flag and returns the
config's previous value. -/
def Shmem.set_owner (s : Shmem) (is_owner : Bool) : Bool × Shmem :=
  let m' := (s.mapping.set_owner is_owner).2
  let prev_val := s.config.owner
  (prev_val, { config := { s.config with owner := is_owner }, mapping := m' })

/-- `Shmem::get_os_id`. -/
def Shmem.get_os_id (s : Shmem) : String := s.mapping.unique_id

/-- `Shmem::len`. -/
def Shmem.len (s : Shmem) : Nat := s.mapping.map_size

/-- `Shmem::get_tmpfs_file_path` (unix): recomputes the path from the
stored config, consuming a fresh random draw when no `os_id` is set. -/
def Shmem.get_tmpfs_file_path (s : Shmem) (rand : Nat) : Option String :=
  if s.config.use_tmpfs then (s.config.get_tmpfs_file_path rand).toOption
  else none

/-- Environment for one `ShmemConf::create` run: the flink pre-check
result, the random stream, per-attempt driver syscall results, and the
flink open/write results. -/
structure CreateEnv where
  flink_exists : Bool
  rands : Nat → Nat
  sys : Nat → AttemptSys
  flink_open : Except CreErr Unit
  flink_write : Except Nat Unit

/-- The `loop` of `ShmemConf::create` for the random-identifier case
(both strategies): generate a fresh identifier each attempt, retry
solely on `MappingIdExists`, return any other error.  `fuel` bounds the
number of modelled attempts (`none` = oracle exhausted). -/
def createRandomLoop (mkPath : Nat → Except ShmemError String) (size : Nat)
    (mode : Option Nat) (sys : Nat → AttemptSys) (tmpfs : Bool) :
    Nat → Nat → Option (Except ShmemError MapData × List Event)
  | 0, _ => none
  | fuel + 1, i =>
    match mkPath i with
    | .error e => some (.error e, [])
    | .ok id =>
      match (if tmpfs then create_mapping_tmpfs id size mode (sys i)
             else create_mapping id size mode (sys i)) with
      | .error .MappingIdExists =>
        (createRandomLoop mkPath size mode sys tmpfs fuel (i + 1)).map
          (fun r => (r.1, .driverCreate id :: r.2))
      | .ok m => some (.ok m, [.driverCreate id])
      | .error e => some (.error e, [.driverCreate id])

/-- The mapping-construction stage of `ShmemConf::create`
(`lib.rs` lines 161–217): tmpfs vs `shm_open` strategy, explicit vs
random identifier. -/
def ShmemConf.mappingStage (c : ShmemConf) (env : CreateEnv) (fuel : Nat) :
    Option (Except ShmemError MapData × List Event) :=
  if cfgNotWindows && c.use_tmpfs then
    match c.os_id with
    | some _ =>
      match c.get_tmpfs_file_path 0 with
      | .error e => some (.error e, [])
      | .ok path =>
        some (create_mapping_tmpfs path c.size c.mode (env.sys 0),
              [.driverCreate path])
    | none =>
      createRandomLoop (fun i => c.get_tmpfs_file_path (env.rands i))
        c.size c.mode env.sys true fuel 0
  else
    match c.os_id with
    | none =>
      createRandomLoop (fun i => .ok ("/shmem_" ++ hexUpper (env.rands i)))
        c.size c.mode env.sys false fuel 0
    | some specific_id =>
      some (create_mapping specific_id c.size c.mode (env.sys 0),
            [.driverCreate specific_id])

/-- `ShmemConf::create`.  Error paths append the events of the implicit
Rust drops of the local `mapping` and of `self` (the config). -/
def ShmemConf.create (c : ShmemConf) (env : CreateEnv) (fuel : Nat) :
    Option (Except ShmemError Shmem × List Event) :=
  if c.size = 0 then some (.error .MapSizeZero, c.dropEvents)
  else if c.flink_path.isSome && !c.overwrite_flink && env.flink_exists then
    some (.error .LinkExists, c.dropEvents)
  else
    match c.mappingStage env fuel with
    | none => none
    | some (.error e, evs) => some (.error e, evs ++ c.dropEvents)
    | some (.ok mapping, evs) =>
      match c.flink_path with
      | some flink_path =>
        match env.flink_open with
        | .ok _ =>
          match env.flink_write with
          | .ok _ =>
            some (.ok { config := { c with owner := true, size := mapping.map_size },
                        mapping := mapping },
                  evs ++ [.flinkCreate flink_path,
                          .flinkWrite flink_path mapping.unique_id])
          | .error e =>
            some (.error (.LinkWriteFailed e),
                  evs ++ [.flinkCreate flink_path, .removeFile flink_path]
                      ++ mapping.dropEvents ++ c.dropEvents)
        | .error .eexist =>
          some (.error .LinkExists, evs ++ mapping.dropEvents ++ c.dropEvents)
        | .error (.other e) =>
          some (.error (.LinkCreateFailed e),
                evs ++ mapping.dropEvents ++ c.dropEvents)
      | none =>
        some (.ok { config := { c with owner := true, size := mapping.map_size },
                    mapping := mapping }, evs)

/-- A flink read (`File::open` + `read_to_string`) outcome. -/
inductive FlinkReadErr where
  | openFail (code : Nat)
  | readFail (code : Nat)
  deriving DecidableEq, Repr

/-- Environment for one `ShmemConf::open` run: per-iteration flink read
results and per-iteration driver syscall results. -/
structure OpenEnv where
  flinkRead : Nat → Except FlinkReadErr String
  sys : Nat → OpenSys

/-- The identifier resolution of `ShmemConf::open` for an explicit
`os_id`: in tmpfs mode convert the id to a file path, otherwise use the
id directly. -/
def ShmemConf.resolveOsId (c : ShmemConf) (unique_id : String) :
    Except ShmemError String :=
  if cfgNotWindows && c.use_tmpfs then c.get_tmpfs_file_path 0
  else .ok unique_id

/-- The `mapping_result` block of `ShmemConf::open`: tmpfs mode treats
the identifier as a file path, namespace mode as an shm id. -/
def ShmemConf.driverOpenCall (c : ShmemConf) (id : String) (sys : OpenSys) :
    Except ShmemError MapData :=
  if cfgNotWindows && c.use_tmpfs then open_mapping_tmpfs id c.size sys
  else open_mapping id c.size sys

/-- The `loop` of `ShmemConf::open` (`lib.rs` lines 278–332).  `i`
indexes oracle entries; `retry` is the source's retry counter (starting
at 0).  With an explicit `os_id` the source sets `retry = 5` and the
retry guard `os_id.is_none() && retry < 5` can never hold, so that
branch never recurses; identifiers read from the flink are retried on
`MapOpenFailed` while `retry < 5`, with a 50 ms sleep per retry. -/
def ShmemConf.openLoop (c : ShmemConf) (env : OpenEnv) (i retry : Nat) :
    Except ShmemError Shmem × List Event :=
  match c.os_id with
  | some unique_id =>
    match c.resolveOsId unique_id with
    | .error e => (.error e, [])
    | .ok id =>
      match c.driverOpenCall id (env.sys i) with
      | .ok m =>
        (.ok { config := { c with size := m.map_size, owner := false },
               mapping := m }, [.driverOpen id])
      | .error e => (.error e, [.driverOpen id])
  | none =>
    match c.flink_path with
    | none => (.error .NoLinkOrOsId, [])
    | some _ =>
      match env.flinkRead i with
      | .error (.openFail e) => (.error (.LinkOpenFailed e), [])
      | .error (.readFail e) => (.error (.LinkReadFailed e), [])
      | .ok flink_content =>
        match c.driverOpenCall flink_content (env.sys i) with
        | .ok m =>
          (.ok { config := { c with size := m.map_size, owner := false },
                 mapping := m }, [.driverOpen flink_content])
        | .error (.MapOpenFailed e) =>
          if retry < 5 then
            let r := c.openLoop env (i + 1) (retry + 1)
            (r.1, .driverOpen flink_content :: .sleepMs 50 :: r.2)
          else (.error (.MapOpenFailed e), [.driverOpen flink_content])
        | .error e => (.error e, [.driverOpen flink_content])
termination_by 5 - retry
decreasing_by simp_wf; omega

/-- `ShmemConf::open` (named `openShmem` because `open` is reserved in
Lean).  The guard before the loop mirrors the source condition
`flink_path.is_none() && os_id.is_none() && !cfg!(not(windows)) &&
use_tmpfs` verbatim; on the unix build it can never hold, and the
missing-identifier case is caught inside the loop instead. -/
def ShmemConf.openShmem (c : ShmemConf) (env : OpenEnv) :
    Except ShmemError Shmem × List Event :=
  if c.flink_path.isNone && c.os_id.isNone && !cfgNotWindows && c.use_tmpfs
  then (.error .NoLinkOrOsId, [])
  else c.openLoop env 0 0

/-! ## Helper lemmas shared by several claims -/

/-- The event by which `Drop for MapData` destroys the backing region:
file deletion in tmpfs mode, `shm_unlink` in namespace mode. -/
def MapData.destroyEvent (m : MapData) : Event :=
  if m.is_tmpfs then .removeFile m.unique_id else .shmUnlink m.unique_id

theorem create_mapping_ok_owner (id : String) (size : Nat) (mode : Option Nat)
    (sys : AttemptSys) (m : MapData) (h : create_mapping id size mode sys = .ok m) :
    m.owner = true := by
  obtain ⟨op, tr, mm⟩ := sys
  cases op with
  | error e =>
    cases e <;> simp [create_mapping] at h <;> split at h <;> simp_all
  | ok fd =>
    cases tr with
    | error e => simp [create_mapping] at h; split at h <;> simp_all
    | ok u =>
      cases mm with
      | error e => simp [create_mapping] at h; split at h <;> simp_all
      | ok addr =>
        by_cases hs : size = 0 <;> simp [create_mapping, hs] at h
        subst h
        rfl

theorem create_mapping_tmpfs_ok_owner (id : String) (size : Nat)
    (mode : Option Nat) (sys : AttemptSys) (m : MapData)
    (h : create_mapping_tmpfs id size mode sys = .ok m) :
    m.owner = true := by
  obtain ⟨op, tr, mm⟩ := sys
  cases op with
  | error e =>
    cases e <;> simp [create_mapping_tmpfs] at h <;> split at h <;> simp_all
  | ok fd =>
    cases tr with
    | error e => simp [create_mapping_tmpfs] at h; split at h <;> simp_all
    | ok u =>
      cases mm with
      | error e => simp [create_mapping_tmpfs] at h; split at h <;> simp_all
      | ok addr =>
        by_cases hs : size = 0 <;> simp [create_mapping_tmpfs, hs] at h
        subst h
        rfl

theorem open_mapping_ok_props (id : String) (hint : Nat) (sys : OpenSys)
    (m : MapData) (h : open_mapping id hint sys = .ok m) :
    m.owner = false ∧ sys.fstatRes = .ok m.map_size := by
  obtain ⟨op, fs, mm⟩ := sys
  cases op with
  | error e => simp [open_mapping] at h
  | ok fd =>
    cases fs with
    | error e => simp [open_mapping] at h
    | ok st_size =>
      by_cases hz : st_size = 0
      · simp [open_mapping, hz] at h
      · cases mm with
        | error e => simp [open_mapping, hz] at h
        | ok addr =>
          simp [open_mapping, hz] at h
          subst h
          exact ⟨rfl, rfl⟩

theorem open_mapping_tmpfs_ok_props (id : String) (hint : Nat) (sys : OpenSys)
    (m : MapData) (h : open_mapping_tmpfs id hint sys = .ok m) :
    m.owner = false ∧ sys.fstatRes = .ok m.map_size := by
  obtain ⟨op, fs, mm⟩ := sys
  cases op with
  | error e => simp [open_mapping_tmpfs] at h
  | ok fd =>
    cases fs with
    | error e => simp [open_mapping_tmpfs] at h
    | ok st_size =>
      by_cases hz : st_size = 0
      · simp [open_mapping_tmpfs, hz] at h
      · cases mm with
        | error e => simp [open_mapping_tmpfs, hz] at h
        | ok addr =>
          simp [open_mapping_tmpfs, hz] at h
          subst h
          exact ⟨rfl, rfl⟩

theorem createRandomLoop_ok_owner (mkPath : Nat → Except ShmemError String)
    (size : Nat) (mode : Option Nat) (sys : Nat → AttemptSys) (tmpfs : Bool) :
    ∀ (fuel i : Nat) (m : MapData) (evs : List Event),
      createRandomLoop mkPath size mode sys tmpfs fuel i = some (.ok m, evs) →
      m.owner = true := by
  intro fuel
  induction fuel with
  | zero => intro i m evs h; simp [createRandomLoop] at h
  | succ f ih =>
    intro i m evs h
    rw [createRandomLoop] at h
    cases hmk : mkPath i with
    | error e => rw [hmk] at h; simp at h
    | ok id =>
      simp only [hmk] at h
      cases hres : (if tmpfs then create_mapping_tmpfs id size mode (sys i)
                    else create_mapping id size mode (sys i)) with
      | ok m0 =>
        rw [hres] at h
        simp at h
        obtain ⟨hm, -⟩ := h
        subst hm
        cases tmpfs with
        | true => exact create_mapping_tmpfs_ok_owner _ _ _ _ _ (by simpa using hres)
        | false => exact create_mapping_ok_owner _ _ _ _ _ (by simpa using hres)
      | error e =>
        rw [hres] at h
        cases e with
        | MappingIdExists =>
          simp only [Option.map] at h
          cases hl : createRandomLoop mkPath size mode sys tmpfs f (i + 1) with
          | none => rw [hl] at h; simp at h
          | some r =>
            obtain ⟨r1, r2⟩ := r
            rw [hl] at h
            simp at h
            obtain ⟨hr1, -⟩ := h
            rw [hr1] at hl
            exact ih (i + 1) m r2 hl
        | _ => simp at h

theorem cons_map_range {α : Type} (g : Nat → α) (k i : Nat) :
    g i :: (List.range k).map (fun j => g (i + 1 + j)) =
    (List.range (k + 1)).map (fun j => g (i + j)) := by
  have hf : ((fun j => g (i + j)) ∘ Nat.succ) = fun j => g (i + 1 + j) := by
    funext j
    simp only [Function.comp_apply]
    congr 1
    omega
  rw [List.range_succ_eq_map, List.map_cons, List.map_map, hf]
  simp

/-- Exact behaviour of the random-identifier create loop: `k` leading
collisions followed by a decisive attempt `k` yield attempt `k`'s
result after exactly `k + 1` driver attempts, one freshly generated
identifier each. -/
theorem createRandomLoop_spec (size : Nat) (mode : Option Nat)
    (sys : Nat → AttemptSys) (tmpfs : Bool)
    (mkPath : Nat → Except ShmemError String) (ids : Nat → String) :
    ∀ (k i fuel : Nat), k < fuel →
      (∀ j, j ≤ k → mkPath (i + j) = .ok (ids (i + j))) →
      (∀ j, j < k →
        (if tmpfs then create_mapping_tmpfs (ids (i + j)) size mode (sys (i + j))
         else create_mapping (ids (i + j)) size mode (sys (i + j))) =
          .error .MappingIdExists) →
      (if tmpfs then create_mapping_tmpfs (ids (i + k)) size mode (sys (i + k))
       else create_mapping (ids (i + k)) size mode (sys (i + k))) ≠
        .error .MappingIdExists →
      createRandomLoop mkPath size mode sys tmpfs fuel i =
        some ((if tmpfs then create_mapping_tmpfs (ids (i + k)) size mode (sys (i + k))
               else create_mapping (ids (i + k)) size mode (sys (i + k))),
              (List.range (k + 1)).map fun j => .driverCreate (ids (i + j))) := by
  intro k
  induction k with
  | zero =>
    intro i fuel hfuel hids hcol hdec
    cases fuel with
    | zero => omega
    | succ f =>
      have h0 := hids 0 (Nat.le_refl 0)
      rw [createRandomLoop]
      simp only [Nat.add_zero] at h0 hdec ⊢
      simp only [h0]
      cases hres : (if tmpfs then create_mapping_tmpfs (ids i) size mode (sys i)
                    else create_mapping (ids i) size mode (sys i)) with
      | ok m0 => simp [hres, List.range_succ]
      | error e =>
        rw [hres] at hdec
        cases e
        case MappingIdExists => exact absurd rfl hdec
        all_goals simp [hres, List.range_succ]
  | succ k ih =>
    intro i fuel hfuel hids hcol hdec
    cases fuel with
    | zero => omega
    | succ f =>
      have h0 := hids 0 (Nat.zero_le _)
      have hcol0 := hcol 0 (Nat.succ_pos k)
      rw [createRandomLoop]
      simp only [Nat.add_zero] at h0 hcol0
      simp only [h0, hcol0]
      have hids' : ∀ j, j ≤ k → mkPath (i + 1 + j) = .ok (ids (i + 1 + j)) := by
        intro j hj
        have hx := hids (j + 1) (by omega)
        rwa [show i + (j + 1) = i + 1 + j by omega] at hx
      have hcol' : ∀ j, j < k →
          (if tmpfs then
             create_mapping_tmpfs (ids (i + 1 + j)) size mode (sys (i + 1 + j))
           else create_mapping (ids (i + 1 + j)) size mode (sys (i + 1 + j))) =
            .error .MappingIdExists := by
        intro j hj
        have hx := hcol (j + 1) (by omega)
        rwa [show i + (j + 1) = i + 1 + j by omega] at hx
      have hdec' := hdec
      rw [show i + (k + 1) = i + 1 + k by omega] at hdec'
      have hrec := ih (i + 1) f (by omega) hids' hcol' hdec'
      rw [hrec]
      simp only [Option.map]
      rw [show i + (k + 1) = i + 1 + k by omega]
      congr 1
      congr 1
      exact cons_map_range (fun n => Event.driverCreate (ids n)) (k + 1) i

theorem driverOpenCall_ok_props (c : ShmemConf) (id : String) (sys : OpenSys)
    (m : MapData) (h : c.driverOpenCall id sys = .ok m) :
    m.owner = false ∧ sys.fstatRes = .ok m.map_size := by
  unfold ShmemConf.driverOpenCall at h
  by_cases ht : (cfgNotWindows && c.use_tmpfs) = true
  · rw [if_pos ht] at h
    exact open_mapping_tmpfs_ok_props _ _ _ _ h
  · rw [if_neg ht] at h
    exact open_mapping_ok_props _ _ _ _ h

theorem mappingStage_ok_owner (c : ShmemConf) (env : CreateEnv) (fuel : Nat)
    (m : MapData) (evs : List Event)
    (h : c.mappingStage env fuel = some (.ok m, evs)) : m.owner = true := by
  unfold ShmemConf.mappingStage at h
  by_cases ht : (cfgNotWindows && c.use_tmpfs) = true
  · rw [if_pos ht] at h
    cases ho : c.os_id with
    | some sid =>
      simp only [ho] at h
      cases hp : c.get_tmpfs_file_path 0 with
      | error e => rw [hp] at h; simp at h
      | ok path =>
        rw [hp] at h
        simp at h
        obtain ⟨hm, -⟩ := h
        exact create_mapping_tmpfs_ok_owner _ _ _ _ _ hm
    | none =>
      simp only [ho] at h
      exact createRandomLoop_ok_owner _ _ _ _ _ _ _ _ _ h
  · rw [if_neg ht] at h
    cases ho : c.os_id with
    | none =>
      simp only [ho] at h
      exact createRandomLoop_ok_owner _ _ _ _ _ _ _ _ _ h
    | some sid =>
      simp only [ho] at h
      simp at h
      obtain ⟨hm, -⟩ := h
      exact create_mapping_ok_owner _ _ _ _ _ hm

theorem openLoop_ok_props (c : ShmemConf) (env : OpenEnv) (i retry : Nat) :
    ∀ s evs, c.openLoop env i retry = (.ok s, evs) →
      s.config.owner = false ∧ s.mapping.owner = false ∧
      s.config.size = s.mapping.map_size := by
  induction i, retry using ShmemConf.openLoop.induct c env with
  | case1 i retry uid hos e hres =>
    intro s evs h
    rw [ShmemConf.openLoop, hos] at h
    simp [hres] at h
  | case2 i retry uid hos id hres m hm =>
    intro s evs h
    rw [ShmemConf.openLoop, hos] at h
    simp only [hres, hm] at h
    simp at h
    obtain ⟨hs, -⟩ := h
    subst hs
    refine ⟨rfl, ?_, rfl⟩
    exact (driverOpenCall_ok_props c id (env.sys i) m hm).1
  | case3 i retry uid hos id hres e hm =>
    intro s evs h
    rw [ShmemConf.openLoop, hos] at h
    simp [hres, hm] at h
  | case4 i retry hos hfl =>
    intro s evs h
    rw [ShmemConf.openLoop, hos, hfl] at h
    simp at h
  | case5 i retry hos p hfl e hread =>
    intro s evs h
    rw [ShmemConf.openLoop, hos, hfl] at h
    simp [hread] at h
  | case6 i retry hos p hfl e hread =>
    intro s evs h
    rw [ShmemConf.openLoop, hos, hfl] at h
    simp [hread] at h
  | case7 i retry hos p hfl content hread m hm =>
    intro s evs h
    rw [ShmemConf.openLoop, hos, hfl] at h
    simp only [hread, hm] at h
    simp at h
    obtain ⟨hs, -⟩ := h
    subst hs
    refine ⟨rfl, ?_, rfl⟩
    exact (driverOpenCall_ok_props c content (env.sys i) m hm).1
  | case8 i retry hos p hfl content hread e hm hretry ih =>
    intro s evs h
    rw [ShmemConf.openLoop, hos, hfl] at h
    simp only [hread, hm, if_pos hretry] at h
    cases hl : c.openLoop env (i + 1) (retry + 1) with
    | mk r1 r2 =>
      rw [hl] at h
      simp at h
      obtain ⟨h1, -⟩ := h
      rw [h1] at hl
      exact ih s r2 hl
  | case9 i retry hos p hfl content hread e hm hretry =>
    intro s evs h
    rw [ShmemConf.openLoop, hos, hfl] at h
    simp [hread, hm, if_neg hretry] at h
  | case10 i retry hos p hfl content hread e hne hm =>
    intro s evs h
    rw [ShmemConf.openLoop, hos, hfl] at h
    simp only [hread, hm] at h
    cases e
    case MapOpenFailed code => exact (hne code rfl).elim
    all_goals simp at h

/-! ## Concrete fixtures used by witnesses -/

/-- A create environment in which every syscall succeeds. -/
def envC : CreateEnv :=
  { flink_exists := false, rands := fun n => n,
    sys := fun _ => { openRes := .ok 3, truncRes := .ok (), mmapRes := .ok 4096 },
    flink_open := .ok (), flink_write := .ok () }

/-- An open environment in which every syscall succeeds. -/
def envO : OpenEnv :=
  { flinkRead := fun _ => .ok "/shmem_A",
    sys := fun _ => { openRes := .ok 4, fstatRes := .ok 2048, mmapRes := .ok 8192 } }

/-! ## Claims -/

/-- C3, counterexample: the claim that the tmpfs-path computation is pure
for every filesystem-backed configuration with a base directory (with or
without an explicit identifier) is false — without an explicit
identifier each call consumes a fresh random draw and returns a
different path. -/
theorem c3_tmpfs_path_purity_counterexample :
    ¬ (∀ (c : ShmemConf) (r r' : Nat), c.use_tmpfs = true →
        c.tmpfs_base_dir.isSome = true →
        c.get_tmpfs_file_path r = c.get_tmpfs_file_path r') := by
  intro hclaim
  have h := hclaim (ShmemConf.new.use_tmpfs_with_dir "/tmp") 0 1 rfl rfl
  have e0 : (ShmemConf.new.use_tmpfs_with_dir "/tmp").get_tmpfs_file_path 0 =
      .ok "/tmp/shmem_0" := rfl
  have e1 : (ShmemConf.new.use_tmpfs_with_dir "/tmp").get_tmpfs_file_path 1 =
      .ok "/tmp/shmem_1" := rfl
  rw [e0, e1] at h
  have hstr : ("/tmp/shmem_0" : String) = "/tmp/shmem_1" := by
    injection h
  exact absurd hstr (by decide)

/-- C3, amended: the tmpfs-path computation is pure whenever an explicit
identifier is configured (the only case in which both create() and a
later open() recompute it): the random draw is never consulted, so any
two calls on the same configuration agree. -/
theorem c3_tmpfs_path_pure_with_explicit_id (c : ShmemConf) (sid : String)
    (h : c.os_id = some sid) (r r' : Nat) :
    c.get_tmpfs_file_path r = c.get_tmpfs_file_path r' := by
  unfold ShmemConf.get_tmpfs_file_path
  cases hb : c.tmpfs_base_dir <;> simp [h, hb]

/-- C3 witness: concrete instance of the amended purity statement. -/
theorem c3_tmpfs_path_pure_with_explicit_id_witness :
    ((ShmemConf.new.use_tmpfs_with_dir "/tmp").set_os_id "seg").get_tmpfs_file_path 0 =
    ((ShmemConf.new.use_tmpfs_with_dir "/tmp").set_os_id "seg").get_tmpfs_file_path 99 :=
  c3_tmpfs_path_pure_with_explicit_id _ "seg" rfl 0 99

/-- C6: for every configuration (all reachable configurations have
`owner = false`), create() with size 0 fails with MapSizeZero and
performs no OS-visible side effect: the event trace is empty and no
oracle value is consulted — the check precedes the flink pre-check, any
driver call, and the reference-file stage. -/
theorem c6_create_zero_size_no_side_effects (c : ShmemConf) (env : CreateEnv)
    (fuel : Nat) (howner : c.owner = false) (hsz : c.size = 0) :
    c.create env fuel = some (.error .MapSizeZero, []) := by
  unfold ShmemConf.create
  rw [if_pos hsz]
  simp [ShmemConf.dropEvents, ShmemConf.dropRun, howner]

/-- C6 witness: the default configuration (size 0) against a fully
successful environment. -/
theorem c6_create_zero_size_witness :
    ShmemConf.new.create envC 3 = some (.error .MapSizeZero, []) :=
  c6_create_zero_size_no_side_effects ShmemConf.new envC 3 rfl rfl

/-- C7: open() on a configuration with neither an explicit identifier
nor a flink path fails with NoLinkOrOsId in every mode (tmpfs mode
included, since `use_tmpfs` is unconstrained here), with an empty event
trace — no driver open attempt is performed. -/
theorem c7_open_requires_identifier (c : ShmemConf) (env : OpenEnv)
    (h1 : c.os_id = none) (h2 : c.flink_path = none) :
    c.openShmem env = (.error .NoLinkOrOsId, []) := by
  unfold ShmemConf.openShmem
  rw [ShmemConf.openLoop]
  simp [h1, h2, cfgNotWindows]

/-- C7 witness: a tmpfs-mode configuration with no identifier and no
flink. -/
theorem c7_open_requires_identifier_witness :
    (ShmemConf.new.use_tmpfs_with_dir "/tmp").openShmem envO =
      (.error .NoLinkOrOsId, []) :=
  c7_open_requires_identifier _ envO rfl rfl

/-- C8: open() ignores the configured size hint in both strategies — the
driver open functions are constant in the hint, a successful open
records exactly the size reported by `fstat`, and the config stored in
the returned handle records the mapping's true size. -/
theorem c8_open_ignores_size_hint :
    (∀ (id : String) (h1 h2 : Nat) (sys : OpenSys),
        open_mapping id h1 sys = open_mapping id h2 sys) ∧
    (∀ (id : String) (h1 h2 : Nat) (sys : OpenSys),
        open_mapping_tmpfs id h1 sys = open_mapping_tmpfs id h2 sys) ∧
    (∀ (id : String) (hint : Nat) (sys : OpenSys) (m : MapData),
        open_mapping id hint sys = .ok m → sys.fstatRes = .ok m.map_size) ∧
    (∀ (id : String) (hint : Nat) (sys : OpenSys) (m : MapData),
        open_mapping_tmpfs id hint sys = .ok m → sys.fstatRes = .ok m.map_size) ∧
    (∀ (c : ShmemConf) (env : OpenEnv) (s : Shmem) (evs : List Event),
        c.openShmem env = (.ok s, evs) → s.config.size = s.mapping.map_size) := by
  refine ⟨?_, ?_, ?_, ?_, ?_⟩
  · intro id h1 h2 sys; rfl
  · intro id h1 h2 sys; rfl
  · intro id hint sys m h; exact (open_mapping_ok_props id hint sys m h).2
  · intro id hint sys m h; exact (open_mapping_tmpfs_ok_props id hint sys m h).2
  · intro c env s evs h
    unfold ShmemConf.openShmem at h
    split at h
    · simp at h
    · exact (openLoop_ok_props c env 0 0 s evs h).2.2

/-- C8 witness: a concrete namespace-mode open whose recorded size is
the `fstat`-reported one (2048) rather than the caller's hint. -/
theorem c8_open_ignores_size_hint_witness :
    open_mapping "/shmem_A" 1 (envO.sys 0) = open_mapping "/shmem_A" 777 (envO.sys 0) ∧
    (envO.sys 0).fstatRes =
      .ok (MapData.map_size { owner := false, map_fd := 4, unique_id := "/shmem_A",
                              map_size := 2048, map_ptr := 8192, is_tmpfs := false }) :=
  ⟨c8_open_ignores_size_hint.1 "/shmem_A" 1 777 (envO.sys 0),
   c8_open_ignores_size_hint.2.2.1 "/shmem_A" 1 (envO.sys 0)
     { owner := false, map_fd := 4, unique_id := "/shmem_A",
       map_size := 2048, map_ptr := 8192, is_tmpfs := false } rfl⟩

/-- C9: the config-level owner flag equals the mapping-level owner flag
on every handle returned by create() (both true) and open() (both
false), and set_owner writes the given value to both flags and returns
the previous value of the config flag. -/
theorem c9_owner_flags_in_sync :
    (∀ (c : ShmemConf) (env : CreateEnv) (fuel : Nat) (s : Shmem) (evs : List Event),
        c.create env fuel = some (.ok s, evs) →
        s.config.owner = true ∧ s.mapping.owner = true) ∧
    (∀ (c : ShmemConf) (env : OpenEnv) (s : Shmem) (evs : List Event),
        c.openShmem env = (.ok s, evs) →
        s.config.owner = false ∧ s.mapping.owner = false) ∧
    (∀ (s : Shmem) (v : Bool),
        (s.set_owner v).1 = s.config.owner ∧
        (s.set_owner v).2.config.owner = v ∧
        (s.set_owner v).2.mapping.owner = v) := by
  refine ⟨?_, ?_, ?_⟩
  · intro c env fuel s evs h
    unfold ShmemConf.create at h
    split at h
    · simp at h
    · split at h
      · simp at h
      · cases hms : c.mappingStage env fuel with
        | none => rw [hms] at h; simp at h
        | some r =>
          obtain ⟨res, evs0⟩ := r
          rw [hms] at h
          cases res with
          | error e => simp at h
          | ok mapping =>
            have howner := mappingStage_ok_owner c env fuel mapping evs0 hms
            cases hfl : c.flink_path with
            | none =>
              simp [hfl] at h
              obtain ⟨hs, -⟩ := h
              subst hs
              exact ⟨rfl, howner⟩
            | some p =>
              cases hop : env.flink_open with
              | ok u =>
                cases hw : env.flink_write with
                | ok u2 =>
                  simp [hfl, hop, hw] at h
                  obtain ⟨hs, -⟩ := h
                  subst hs
                  exact ⟨rfl, howner⟩
                | error e2 => simp [hfl, hop, hw] at h
              | error ce => cases ce <;> simp [hfl, hop] at h
  · intro c env s evs h
    unfold ShmemConf.openShmem at h
    split at h
    · simp at h
    · have hp := openLoop_ok_props c env 0 0 s evs h
      exact ⟨hp.1, hp.2.1⟩
  · intro s v
    exact ⟨rfl, rfl, rfl⟩

/-- Fixtures for the C9/C10 witnesses: a concrete successful create and
open. -/
def conf9 : ShmemConf := (ShmemConf.new.set_size 16).set_os_id "seg"

/-- The mapping produced by `conf9.create envC`. -/
def map9 : MapData :=
  { owner := true, map_fd := 3, unique_id := "seg", map_size := 16,
    map_ptr := 4096, is_tmpfs := false }

/-- The handle produced by `conf9.create envC`. -/
def shmem9 : Shmem :=
  { config := { conf9 with owner := true, size := 16 }, mapping := map9 }

/-- The configuration `conf9` without a size, used for open. -/
def conf9o : ShmemConf := ShmemConf.new.set_os_id "seg"

/-- The mapping produced by `conf9o.openShmem envO`. -/
def map9o : MapData :=
  { owner := false, map_fd := 4, unique_id := "seg", map_size := 2048,
    map_ptr := 8192, is_tmpfs := false }

/-- The handle produced by `conf9o.openShmem envO`. -/
def shmem9o : Shmem :=
  { config := { conf9o with owner := false, size := 2048 }, mapping := map9o }

/-- C9 witness: the three parts instantiated on concrete runs. -/
theorem c9_owner_flags_in_sync_witness :
    (shmem9.config.owner = true ∧ shmem9.mapping.owner = true) ∧
    (shmem9o.config.owner = false ∧ shmem9o.mapping.owner = false) ∧
    ((shmem9.set_owner false).1 = shmem9.config.owner ∧
     (shmem9.set_owner false).2.config.owner = false ∧
     (shmem9.set_owner false).2.mapping.owner = false) :=
  ⟨c9_owner_flags_in_sync.1 conf9 envC 1 shmem9 [.driverCreate "seg"] rfl,
   c9_owner_flags_in_sync.2.1 conf9o envO shmem9o [.driverOpen "seg"]
     (by unfold ShmemConf.openShmem; rw [ShmemConf.openLoop]; rfl),
   c9_owner_flags_in_sync.2.2 shmem9 false⟩

theorem mapdata_dropRun_fst (m : MapData) (fail : Event → Bool) :
    (m.dropRun fail).map Prod.fst = m.dropEvents := by
  unfold MapData.dropEvents MapData.dropRun
  by_cases h1 : m.map_ptr ≠ 0 <;> by_cases h2 : m.map_fd ≠ 0 <;>
    cases h3 : m.owner <;> cases h4 : m.is_tmpfs <;> simp [h1, h2, h3, h4]

theorem conf_dropRun_fst (c : ShmemConf) (fail : Event → Bool) :
    (c.dropRun fail).map Prod.fst = c.dropEvents := by
  unfold ShmemConf.dropEvents ShmemConf.dropRun
  cases h1 : c.owner <;> cases h2 : c.flink_path <;> simp [h1, h2]

/-- C2: dropping a segment handle always unmaps the mapped region (for
any live mapping, i.e. non-null pointer and live descriptor); it
destroys the backing region (unlink or file delete) iff the mapping is
marked owner, deletes the reference file iff the config is marked owner,
and the sequence of attempted teardown steps is independent of which
steps fail — failures are logged and swallowed, never propagated, and
cleanup continues with the next step. -/
theorem c2_drop_teardown (s : Shmem) (p : String)
    (hptr : s.mapping.map_ptr ≠ 0) (hfd : s.mapping.map_fd ≠ 0)
    (hfl : s.config.flink_path = some p) :
    s.dropEvents = s.config.dropEvents ++ s.mapping.dropEvents ∧
    Event.munmapEv s.mapping.map_ptr s.mapping.map_size ∈ s.mapping.dropEvents ∧
    (s.mapping.destroyEvent ∈ s.mapping.dropEvents ↔ s.mapping.owner = true) ∧
    (Event.removeFile p ∈ s.config.dropEvents ↔ s.config.owner = true) ∧
    (∀ fail, (s.dropRun fail).map Prod.fst = s.dropEvents) := by
  refine ⟨?_, ?_, ?_, ?_, ?_⟩
  · simp [Shmem.dropEvents, Shmem.dropRun, MapData.dropEvents,
          ShmemConf.dropEvents, List.map_append]
  · simp [MapData.dropEvents, MapData.dropRun, hptr]
  · unfold MapData.destroyEvent MapData.dropEvents MapData.dropRun
    cases how : s.mapping.owner <;> cases htm : s.mapping.is_tmpfs <;>
      simp [hptr, hfd, how, htm]
  · unfold ShmemConf.dropEvents ShmemConf.dropRun
    cases how : s.config.owner <;> simp [how, hfl]
  · intro fail
    unfold Shmem.dropRun Shmem.dropEvents
    simp [List.map_append, mapdata_dropRun_fst, conf_dropRun_fst,
          Shmem.dropRun]

/-- Fixture for the C2 witness: an owner handle with a flink. -/
def shmem2 : Shmem :=
  { config := { conf9 with owner := true, size := 16, flink_path := some "f" },
    mapping := map9 }

/-- C2 witness: concrete teardown of an owner handle with a flink, with
an all-failing failure oracle. -/
theorem c2_drop_teardown_witness :
    Event.munmapEv 4096 16 ∈ shmem2.mapping.dropEvents ∧
    (shmem2.mapping.destroyEvent ∈ shmem2.mapping.dropEvents ↔
      shmem2.mapping.owner = true) ∧
    (Event.removeFile "f" ∈ shmem2.config.dropEvents ↔
      shmem2.config.owner = true) ∧
    (shmem2.dropRun (fun _ => true)).map Prod.fst = shmem2.dropEvents := by
  have h := c2_drop_teardown shmem2 "f" (by decide) (by decide) rfl
  exact ⟨h.2.1, h.2.2.1, h.2.2.2.1, h.2.2.2.2 (fun _ => true)⟩

/-- C5: when the reference file is created but writing the identifier
into it fails, create() removes the partially written file and returns
LinkWriteFailed — the trace shows the flink creation followed by its
removal, so no corrupt reference file remains after the error. -/
theorem c5_flink_write_failure_cleanup (c : ShmemConf) (env : CreateEnv)
    (fuel : Nat) (p : String) (mapping : MapData) (evs : List Event) (e : Nat)
    (hsz : c.size ≠ 0)
    (hpre : (c.flink_path.isSome && !c.overwrite_flink && env.flink_exists) = false)
    (hms : c.mappingStage env fuel = some (.ok mapping, evs))
    (hfl : c.flink_path = some p)
    (hopen : env.flink_open = .ok ())
    (hwrite : env.flink_write = .error e) :
    c.create env fuel =
      some (.error (.LinkWriteFailed e),
            evs ++ [.flinkCreate p, .removeFile p]
                ++ mapping.dropEvents ++ c.dropEvents) := by
  unfold ShmemConf.create
  rw [if_neg hsz, if_neg (by simp [hpre]), hms]
  simp [hfl, hopen, hwrite]

/-- Fixture: `conf9` with a flink configured. -/
def conf5 : ShmemConf := ((ShmemConf.new.set_size 16).set_os_id "seg").flink "f"

/-- Fixture: `envC` with a failing flink write (error code 28, ENOSPC). -/
def env5 : CreateEnv :=
  { flink_exists := false, rands := fun n => n,
    sys := fun _ => { openRes := .ok 3, truncRes := .ok (), mmapRes := .ok 4096 },
    flink_open := .ok (), flink_write := .error 28 }

/-- C5 witness: concrete run — flink created, write fails with code 28,
flink removed, region torn down, LinkWriteFailed surfaced. -/
theorem c5_flink_write_failure_cleanup_witness :
    conf5.create env5 1 =
      some (.error (.LinkWriteFailed 28),
            [.driverCreate "seg", .flinkCreate "f", .removeFile "f",
             .munmapEv 4096 16, .shmUnlink "seg", .closeFd 3]) :=
  c5_flink_write_failure_cleanup conf5 env5 1 "f" map9 [.driverCreate "seg"] 28
    (by decide) rfl rfl rfl rfl rfl

/-- C10: the driver marks every freshly created mapping as owner, and a
reference-file-stage failure after successful region creation
(LinkExists from a concurrent flink, LinkCreateFailed, or
LinkWriteFailed) returns that error with the mapping's full teardown in
the trace — the owner-marked mapping is dropped, which unmaps and
unlinks/deletes the fresh region, leaving no orphaned OS region. -/
theorem c10_create_flink_failure_releases_region :
    (∀ (id : String) (size : Nat) (mode : Option Nat) (sys : AttemptSys) (m : MapData),
        create_mapping id size mode sys = .ok m → m.owner = true) ∧
    (∀ (id : String) (size : Nat) (mode : Option Nat) (sys : AttemptSys) (m : MapData),
        create_mapping_tmpfs id size mode sys = .ok m → m.owner = true) ∧
    (∀ (c : ShmemConf) (env : CreateEnv) (fuel : Nat) (p : String)
        (mapping : MapData) (evs : List Event),
        c.size ≠ 0 →
        (c.flink_path.isSome && !c.overwrite_flink && env.flink_exists) = false →
        c.mappingStage env fuel = some (.ok mapping, evs) →
        c.flink_path = some p →
        mapping.map_ptr ≠ 0 → mapping.map_fd ≠ 0 →
        (mapping.destroyEvent ∈ mapping.dropEvents ∧
         Event.munmapEv mapping.map_ptr mapping.map_size ∈ mapping.dropEvents) ∧
        (env.flink_open = .error .eexist →
          c.create env fuel =
            some (.error .LinkExists, evs ++ mapping.dropEvents ++ c.dropEvents)) ∧
        (∀ ecode, env.flink_open = .error (.other ecode) →
          c.create env fuel =
            some (.error (.LinkCreateFailed ecode),
                  evs ++ mapping.dropEvents ++ c.dropEvents)) ∧
        (∀ ecode, env.flink_open = .ok () → env.flink_write = .error ecode →
          c.create env fuel =
            some (.error (.LinkWriteFailed ecode),
                  evs ++ [.flinkCreate p, .removeFile p]
                      ++ mapping.dropEvents ++ c.dropEvents))) := by
  refine ⟨create_mapping_ok_owner, create_mapping_tmpfs_ok_owner, ?_⟩
  intro c env fuel p mapping evs hsz hpre hms hfl hptr hfd
  have howner := mappingStage_ok_owner c env fuel mapping evs hms
  refine ⟨⟨?_, ?_⟩, ?_, ?_, ?_⟩
  · unfold MapData.destroyEvent MapData.dropEvents MapData.dropRun
    cases htm : mapping.is_tmpfs <;> simp [hptr, hfd, howner, htm]
  · simp [MapData.dropEvents, MapData.dropRun, hptr]
  · intro hop
    unfold ShmemConf.create
    rw [if_neg hsz, if_neg (by simp [hpre]), hms]
    simp [hfl, hop]
  · intro ecode hop
    unfold ShmemConf.create
    rw [if_neg hsz, if_neg (by simp [hpre]), hms]
    simp [hfl, hop]
  · intro ecode hop hw
    unfold ShmemConf.create
    rw [if_neg hsz, if_neg (by simp [hpre]), hms]
    simp [hfl, hop, hw]

/-- Fixture: `envC` with the flink open failing with AlreadyExists. -/
def env10 : CreateEnv :=
  { flink_exists := false, rands := fun n => n,
    sys := fun _ => { openRes := .ok 3, truncRes := .ok (), mmapRes := .ok 4096 },
    flink_open := .error .eexist, flink_write := .ok () }

/-- C10 witness: concrete run — region created, concurrent flink makes
the exclusive flink creation fail, LinkExists surfaced with the region's
unmap/unlink/close in the trace. -/
theorem c10_create_flink_failure_releases_region_witness :
    (map9.destroyEvent ∈ map9.dropEvents ∧
     Event.munmapEv 4096 16 ∈ map9.dropEvents) ∧
    conf5.create env10 1 =
      some (.error .LinkExists,
            [.driverCreate "seg", .munmapEv 4096 16, .shmUnlink "seg",
             .closeFd 3]) := by
  have h := c10_create_flink_failure_releases_region.2.2 conf5 env10 1 "f" map9
      [.driverCreate "seg"] (by decide) rfl rfl rfl (by decide) (by decide)
  exact ⟨h.1, h.2.1 rfl⟩

/-- C1: identifier resolution in create(): an explicit identifier (in
either strategy) leads to exactly one driver creation attempt whose
result — MappingIdExists on collision included — is propagated by
create() to the caller; with no identifier, the loop generates a fresh
random identifier per attempt (draw `j` for attempt `j`), retries
solely on MappingIdExists, and returns any other outcome immediately. -/
theorem c1_create_identifier_resolution :
    (∀ (c : ShmemConf) (env : CreateEnv) (fuel : Nat) (sid : String),
        c.use_tmpfs = false → c.os_id = some sid →
        c.mappingStage env fuel =
          some (create_mapping sid c.size c.mode (env.sys 0),
                [.driverCreate sid])) ∧
    (∀ (c : ShmemConf) (env : CreateEnv) (fuel : Nat) (sid d : String),
        c.use_tmpfs = true → c.os_id = some sid → c.tmpfs_base_dir = some d →
        c.mappingStage env fuel =
          some (create_mapping_tmpfs (pathJoin d ("shmem_" ++ sid))
                  c.size c.mode (env.sys 0),
                [.driverCreate (pathJoin d ("shmem_" ++ sid))])) ∧
    (∀ (c : ShmemConf) (env : CreateEnv) (fuel : Nat) (e : ShmemError)
        (evs : List Event),
        c.size ≠ 0 →
        (c.flink_path.isSome && !c.overwrite_flink && env.flink_exists) = false →
        c.mappingStage env fuel = some (.error e, evs) →
        c.create env fuel = some (.error e, evs ++ c.dropEvents)) ∧
    (∀ (c : ShmemConf) (env : CreateEnv) (fuel k : Nat),
        c.use_tmpfs = false → c.os_id = none → k < fuel →
        (∀ j, j < k →
          create_mapping ("/shmem_" ++ hexUpper (env.rands j)) c.size c.mode
            (env.sys j) = .error .MappingIdExists) →
        create_mapping ("/shmem_" ++ hexUpper (env.rands k)) c.size c.mode
          (env.sys k) ≠ .error .MappingIdExists →
        c.mappingStage env fuel =
          some (create_mapping ("/shmem_" ++ hexUpper (env.rands k)) c.size
                  c.mode (env.sys k),
                (List.range (k + 1)).map
                  fun j => .driverCreate ("/shmem_" ++ hexUpper (env.rands j)))) ∧
    (∀ (c : ShmemConf) (env : CreateEnv) (fuel k : Nat) (d : String),
        c.use_tmpfs = true → c.os_id = none → c.tmpfs_base_dir = some d →
        k < fuel →
        (∀ j, j < k →
          create_mapping_tmpfs (pathJoin d ("shmem_" ++ hexUpper (env.rands j)))
            c.size c.mode (env.sys j) = .error .MappingIdExists) →
        create_mapping_tmpfs (pathJoin d ("shmem_" ++ hexUpper (env.rands k)))
          c.size c.mode (env.sys k) ≠ .error .MappingIdExists →
        c.mappingStage env fuel =
          some (create_mapping_tmpfs
                  (pathJoin d ("shmem_" ++ hexUpper (env.rands k)))
                  c.size c.mode (env.sys k),
                (List.range (k + 1)).map
                  fun j => .driverCreate
                    (pathJoin d ("shmem_" ++ hexUpper (env.rands j))))) := by
  refine ⟨?_, ?_, ?_, ?_, ?_⟩
  · intro c env fuel sid ht ho
    unfold ShmemConf.mappingStage
    simp [cfgNotWindows, ht, ho]
  · intro c env fuel sid d ht ho hb
    unfold ShmemConf.mappingStage
    simp [cfgNotWindows, ht, ho, hb, ShmemConf.get_tmpfs_file_path]
  · intro c env fuel e evs hsz hpre hms
    unfold ShmemConf.create
    rw [if_neg hsz, if_neg (by simp [hpre]), hms]
  · intro c env fuel k ht ho hk hcol hdec
    unfold ShmemConf.mappingStage
    simp only [cfgNotWindows, ht, Bool.and_false, Bool.false_eq_true, if_false,
               ho]
    have hids : ∀ j, j ≤ k →
        (fun i => (Except.ok ("/shmem_" ++ hexUpper (env.rands i)) :
          Except ShmemError String)) (0 + j) =
        .ok ((fun i => "/shmem_" ++ hexUpper (env.rands i)) (0 + j)) :=
      fun j hj => rfl
    have hcol' : ∀ j, j < k →
        (if false then
          create_mapping_tmpfs ((fun i => "/shmem_" ++ hexUpper (env.rands i)) (0 + j))
            c.size c.mode (env.sys (0 + j))
         else
          create_mapping ((fun i => "/shmem_" ++ hexUpper (env.rands i)) (0 + j))
            c.size c.mode (env.sys (0 + j))) = .error .MappingIdExists := by
      intro j hj
      simpa using hcol j hj
    have hdec' :
        (if false then
          create_mapping_tmpfs ((fun i => "/shmem_" ++ hexUpper (env.rands i)) (0 + k))
            c.size c.mode (env.sys (0 + k))
         else
          create_mapping ((fun i => "/shmem_" ++ hexUpper (env.rands i)) (0 + k))
            c.size c.mode (env.sys (0 + k))) ≠ .error .MappingIdExists := by
      simpa using hdec
    have h := createRandomLoop_spec c.size c.mode env.sys false
      (fun i => .ok ("/shmem_" ++ hexUpper (env.rands i)))
      (fun i => "/shmem_" ++ hexUpper (env.rands i)) k 0 fuel hk hids hcol' hdec'
    simpa using h
  · intro c env fuel k d ht ho hb hk hcol hdec
    unfold ShmemConf.mappingStage
    simp only [cfgNotWindows, ht, Bool.and_true, Bool.true_and, if_true, ho]
    have hmk : ∀ r, c.get_tmpfs_file_path r =
        .ok (pathJoin d ("shmem_" ++ hexUpper r)) := by
      intro r
      simp [ShmemConf.get_tmpfs_file_path, ht, ho, hb]
    have hids : ∀ j, j ≤ k →
        (fun i => c.get_tmpfs_file_path (env.rands i)) (0 + j) =
        .ok ((fun i => pathJoin d ("shmem_" ++ hexUpper (env.rands i))) (0 + j)) := by
      intro j hj
      simpa using hmk (env.rands (0 + j))
    have hcol' : ∀ j, j < k →
        (if true then
          create_mapping_tmpfs
            ((fun i => pathJoin d ("shmem_" ++ hexUpper (env.rands i))) (0 + j))
            c.size c.mode (env.sys (0 + j))
         else
          create_mapping
            ((fun i => pathJoin d ("shmem_" ++ hexUpper (env.rands i))) (0 + j))
            c.size c.mode (env.sys (0 + j))) = .error .MappingIdExists := by
      intro j hj
      simpa using hcol j hj
    have hdec' :
        (if true then
          create_mapping_tmpfs
            ((fun i => pathJoin d ("shmem_" ++ hexUpper (env.rands i))) (0 + k))
            c.size c.mode (env.sys (0 + k))
         else
          create_mapping
            ((fun i => pathJoin d ("shmem_" ++ hexUpper (env.rands i))) (0 + k))
            c.size c.mode (env.sys (0 + k))) ≠ .error .MappingIdExists := by
      simpa using hdec
    have h := createRandomLoop_spec c.size c.mode env.sys true
      (fun i => c.get_tmpfs_file_path (env.rands i))
      (fun i => pathJoin d ("shmem_" ++ hexUpper (env.rands i))) k 0 fuel hk
      hids hcol' hdec'
    simpa using h

/-- Fixture: explicit-id environment whose only creation attempt
collides. -/
def envX : CreateEnv :=
  { flink_exists := false, rands := fun n => n,
    sys := fun _ => { openRes := .error .eexist, truncRes := .ok (),
                      mmapRes := .ok 4096 },
    flink_open := .ok (), flink_write := .ok () }

/-- Fixture: random-id environment where attempt 0 collides and attempt
1 succeeds. -/
def env1 : CreateEnv :=
  { flink_exists := false, rands := fun n => n,
    sys := fun n =>
      if n = 0 then
        { openRes := .error .eexist, truncRes := .ok (), mmapRes := .ok 4096 }
      else
        { openRes := .ok 5, truncRes := .ok (), mmapRes := .ok 4096 },
    flink_open := .ok (), flink_write := .ok () }

/-- Fixture: default config with a size, no identifier. -/
def conf1 : ShmemConf := ShmemConf.new.set_size 16

/-- C1 witness: an explicit-id create propagates MappingIdExists after
one attempt; a random-id create retries past one collision and succeeds
on the second freshly drawn identifier. -/
theorem c1_create_identifier_resolution_witness :
    conf9.create envX 1 = some (.error .MappingIdExists, [.driverCreate "seg"]) ∧
    conf1.mappingStage env1 2 =
      some (.ok { owner := true, map_fd := 5, unique_id := "/shmem_1",
                  map_size := 16, map_ptr := 4096, is_tmpfs := false },
            [.driverCreate "/shmem_0", .driverCreate "/shmem_1"]) := by
  constructor
  · exact c1_create_identifier_resolution.2.2.1 conf9 envX 1 .MappingIdExists
      [.driverCreate "seg"] (by decide) rfl rfl
  · have hcol : ∀ j, j < 1 →
        create_mapping ("/shmem_" ++ hexUpper (env1.rands j)) conf1.size
          conf1.mode (env1.sys j) = .error .MappingIdExists := by
      intro j hj
      have hj0 : j = 0 := by omega
      subst hj0
      rfl
    have hdec :
        create_mapping ("/shmem_" ++ hexUpper (env1.rands 1)) conf1.size
          conf1.mode (env1.sys 1) ≠ .error .MappingIdExists := by
      have hh : create_mapping ("/shmem_" ++ hexUpper (env1.rands 1)) conf1.size
          conf1.mode (env1.sys 1) =
          .ok { owner := true, map_fd := 5, unique_id := "/shmem_1",
                map_size := 16, map_ptr := 4096, is_tmpfs := false } := rfl
      rw [hh]
      simp
    exact c1_create_identifier_resolution.2.2.2.1 conf1 env1 2 1 rfl rfl
      (by omega) hcol hdec

/-- C4: open() retry policy.  With an explicit identifier (either
strategy) any driver error — MapOpenFailed included — is returned
immediately after a single attempt, with no sleep.  With an identifier
read from the flink, an error of any kind other than MapOpenFailed is
returned immediately; persistent MapOpenFailed results are retried with
a 50 ms sleep per retry, bounded at 5 retries (6 attempts), after which
the last failure is surfaced. -/
theorem c4_open_retry_policy :
    (∀ (c : ShmemConf) (env : OpenEnv) (uid : String) (e : ShmemError),
        c.os_id = some uid → c.use_tmpfs = false →
        c.driverOpenCall uid (env.sys 0) = .error e →
        c.openShmem env = (.error e, [.driverOpen uid])) ∧
    (∀ (c : ShmemConf) (env : OpenEnv) (uid d : String) (e : ShmemError),
        c.os_id = some uid → c.use_tmpfs = true → c.tmpfs_base_dir = some d →
        c.driverOpenCall (pathJoin d ("shmem_" ++ uid)) (env.sys 0) = .error e →
        c.openShmem env =
          (.error e, [.driverOpen (pathJoin d ("shmem_" ++ uid))])) ∧
    (∀ (c : ShmemConf) (env : OpenEnv) (p cont : String) (e : ShmemError),
        c.os_id = none → c.flink_path = some p →
        env.flinkRead 0 = .ok cont →
        c.driverOpenCall cont (env.sys 0) = .error e →
        (∀ code, e ≠ .MapOpenFailed code) →
        c.openShmem env = (.error e, [.driverOpen cont])) ∧
    (∀ (c : ShmemConf) (env : OpenEnv) (p : String)
        (cont : Nat → String) (e : Nat → Nat),
        c.os_id = none → c.flink_path = some p →
        (∀ j, j < 6 → env.flinkRead j = .ok (cont j)) →
        (∀ j, j < 6 →
          c.driverOpenCall (cont j) (env.sys j) = .error (.MapOpenFailed (e j))) →
        c.openShmem env =
          (.error (.MapOpenFailed (e 5)),
           [.driverOpen (cont 0), .sleepMs 50, .driverOpen (cont 1), .sleepMs 50,
            .driverOpen (cont 2), .sleepMs 50, .driverOpen (cont 3), .sleepMs 50,
            .driverOpen (cont 4), .sleepMs 50, .driverOpen (cont 5)])) := by
  refine ⟨?_, ?_, ?_, ?_⟩
  · intro c env uid e hos ht hdrv
    unfold ShmemConf.openShmem
    rw [if_neg (by simp [cfgNotWindows])]
    rw [ShmemConf.openLoop]
    have hres : c.resolveOsId uid = .ok uid := by
      simp [ShmemConf.resolveOsId, cfgNotWindows, ht]
    simp [hos, hres, hdrv]
  · intro c env uid d e hos ht hb hdrv
    unfold ShmemConf.openShmem
    rw [if_neg (by simp [cfgNotWindows])]
    rw [ShmemConf.openLoop]
    have hres : c.resolveOsId uid = .ok (pathJoin d ("shmem_" ++ uid)) := by
      simp [ShmemConf.resolveOsId, cfgNotWindows, ht,
            ShmemConf.get_tmpfs_file_path, hos, hb]
    simp [hos, hres, hdrv]
  · intro c env p cont e hos hfl hread hdrv hne
    unfold ShmemConf.openShmem
    rw [if_neg (by simp [cfgNotWindows])]
    rw [ShmemConf.openLoop]
    simp only [hos, hfl, hread, hdrv]
  · intro c env p cont e hos hfl hread hdrv
    unfold ShmemConf.openShmem
    rw [if_neg (by simp [cfgNotWindows])]
    rw [ShmemConf.openLoop]
    simp only [hos, hfl, hread 0 (by omega), hdrv 0 (by omega),
               Nat.zero_lt_succ, if_pos (show (0 : Nat) < 5 by omega)]
    rw [ShmemConf.openLoop]
    simp only [hos, hfl, hread 1 (by omega), hdrv 1 (by omega),
               if_pos (show (1 : Nat) < 5 by omega)]
    rw [ShmemConf.openLoop]
    simp only [hos, hfl, hread 2 (by omega), hdrv 2 (by omega),
               if_pos (show (2 : Nat) < 5 by omega)]
    rw [ShmemConf.openLoop]
    simp only [hos, hfl, hread 3 (by omega), hdrv 3 (by omega),
               if_pos (show (3 : Nat) < 5 by omega)]
    rw [ShmemConf.openLoop]
    simp only [hos, hfl, hread 4 (by omega), hdrv 4 (by omega),
               if_pos (show (4 : Nat) < 5 by omega)]
    rw [ShmemConf.openLoop]
    simp only [hos, hfl, hread 5 (by omega), hdrv 5 (by omega),
               if_neg (show ¬ (5 : Nat) < 5 by omega)]
    simp

/-- Fixture: an open environment whose every driver attempt fails with
errno 2 (ENOENT) and whose flink always reads "/shmem_B". -/
def envF : OpenEnv :=
  { flinkRead := fun _ => .ok "/shmem_B",
    sys := fun _ => { openRes := .error 2, fstatRes := .ok 2048,
                      mmapRes := .ok 8192 } }

/-- Fixture: a flink-only configuration for the retry witness. -/
def conf4 : ShmemConf := ShmemConf.new.flink "f4"

/-- C4 witness: a flink-based open against a persistently missing
region performs 6 attempts separated by 5 sleeps of 50 ms and surfaces
MapOpenFailed, while an explicit-id open fails once with no sleep. -/
theorem c4_open_retry_policy_witness :
    conf4.openShmem envF =
      (.error (.MapOpenFailed 2),
       [.driverOpen "/shmem_B", .sleepMs 50, .driverOpen "/shmem_B", .sleepMs 50,
        .driverOpen "/shmem_B", .sleepMs 50, .driverOpen "/shmem_B", .sleepMs 50,
        .driverOpen "/shmem_B", .sleepMs 50, .driverOpen "/shmem_B"]) ∧
    (ShmemConf.new.set_os_id "segB").openShmem envF =
      (.error (.MapOpenFailed 2), [.driverOpen "segB"]) := by
  constructor
  · exact c4_open_retry_policy.2.2.2 conf4 envF "f4" (fun _ => "/shmem_B")
      (fun _ => 2) rfl rfl (fun j hj => rfl) (fun j hj => rfl)
  · exact c4_open_retry_policy.1 (ShmemConf.new.set_os_id "segB") envF "segB"
      (.MapOpenFailed 2) rfl rfl rfl
